import Mathlib

/-!
Shallow embedding of `enviroSendData.py`: sensor reading, value formatting,
HTTP uploading, and the main scheduler loop.  Sensor drivers, the HTTP
client, the clock and the environment are modelled as explicit inputs;
machine floats are modelled as rationals; Python exceptions are modelled
with `Except` / an explicit exception component threaded through the loop.
-/

namespace EnviroSendData

/-- Python exceptions relevant to this program. -/
inductive Exc where
  | readTimeoutError
  | checksumMismatchError
  | sensorError (msg : String)
  | typeError (msg : String)
  | keyError (k : String)
deriving DecidableEq, Repr

/-- Rendering of an exception, as interpolated into a log message. -/
def excMsg : Exc → String
  | Exc.readTimeoutError => "ReadTimeoutError"
  | Exc.checksumMismatchError => "ChecksumMismatchError"
  | Exc.sensorError m => m
  | Exc.typeError m => m
  | Exc.keyError k => k

/-- Outcome of a `requests.post` call: either a response object (with its
`ok` flag and `reason`), or one of the transport-level exceptions the code
catches (`ConnectionError`, `Timeout`, other `RequestException`). -/
inductive HttpOutcome where
  | response (ok : Bool) (reason : String)
  | connectionError (msg : String)
  | timeoutError (msg : String)
  | requestError (msg : String)
deriving DecidableEq, Repr

/-- Observable events of one loop iteration: log lines and calls into the
two upload functions (recording the mapping each call received). -/
inductive Event where
  | logInfoValues (values : List (String × String))
  | logInfo (msg : String)
  | logWarning (msg : String)
  | pmSendCall (values : List (String × String))
  | enviroSendCall (values : List (String × String))
deriving DecidableEq, Repr

/-- A successful `pms5003.read()`: the three `pm_ug_per_m3` size cuts. -/
structure PmReading where
  pm1 : ℕ
  pm25 : ℕ
  pm10 : ℕ
deriving DecidableEq, Repr

/-- Raw inputs consumed by `read_enviro_values`: the formatted local date,
the CPU temperature, and the raw BME280 / gas sensor readings. -/
structure EnviroInputs where
  date : String
  cpu_temp : ℚ
  raw_temp : ℚ
  pressure : ℚ
  humidity : ℚ
  oxidising : ℚ
  reducing : ℚ
  nh3 : ℚ
deriving DecidableEq, Repr

/-- Compensation factor for temperature (`comp_factor = 2.25`). -/
def comp_factor : ℚ := 2.25

/-- Python `int(x)` on a float: truncation toward zero. -/
def truncQ (q : ℚ) : ℤ := if 0 ≤ q then ⌊q⌋ else ⌈q⌉

/-- Round to the nearest integer, ties to even — the rounding used when
CPython formats a value with `"\x7b:05.2f\x7d"`. -/
def roundHalfEven (q : ℚ) : ℤ :=
  let f := ⌊q⌋
  let r := q - f
  if r < 1 / 2 then f
  else if 1 / 2 < r then f + 1
  else if f % 2 = 0 then f else f + 1

/-- Render an integer number of hundredths as a fixed-point decimal with
two fractional digits, zero-padded to a minimum total width of 5
characters (the sign, when present, counts toward the width and precedes
the padding) — the shape produced by `"\x7b:05.2f\x7d".format`. -/
def renderFixed2 (n : ℤ) : String :=
  let sign : String := if n < 0 then "-" else ""
  let m : ℕ := n.natAbs
  let frac : ℕ := m % 100
  let fracStr : String := (if frac < 10 then "0" else "") ++ Nat.repr frac
  let body : String := Nat.repr (m / 100) ++ "." ++ fracStr
  let pad : ℕ := 5 - (sign.length + body.length)
  sign ++ String.mk (List.replicate pad '0') ++ body

/-- Python `"\x7b:05.2f\x7d".format (x)`. -/
def fmt05_2f (x : ℚ) : String := renderFixed2 (roundHalfEven (x * 100))

/-- Model of `read_enviro_values`, as a function of the raw sensor inputs: builds
the ordered mapping of string-encoded fields. -/
def read_enviro_values (i : EnviroInputs) : List (String × String) :=
  [("date", i.date),
   ("temperature", fmt05_2f (i.raw_temp - (i.cpu_temp - i.raw_temp) / comp_factor)),
   ("pressure", fmt05_2f i.pressure),
   ("humidity", fmt05_2f i.humidity),
   ("oxidising", toString (truncQ (i.oxidising / 1000))),
   ("reducing", toString (truncQ (i.reducing / 1000))),
   ("nh3", toString (truncQ (i.nh3 / 1000)))]

/-- The mapping built from a successful particulate read. -/
def pmDict (date : String) (r : PmReading) : List (String × String) :=
  [("date", date),
   ("pm1", toString r.pm1),
   ("pm25", toString r.pm25),
   ("pm10", toString r.pm10)]

/-- Model of `read_pm_values`: first read attempt; on `ReadTimeoutError` or
`ChecksumMismatchError` one reset and one retry (second component counts
resets); any other first-attempt error, and any second-attempt error,
propagates. -/
def read_pm_values (date : String) (attempt1 attempt2 : Except Exc PmReading) :
    Except Exc (List (String × String)) × ℕ :=
  match attempt1 with
  | Except.ok r => (Except.ok (pmDict date r), 0)
  | Except.error e =>
    if e = Exc.readTimeoutError ∨ e = Exc.checksumMismatchError then
      match attempt2 with
      | Except.ok r => (Except.ok (pmDict date r), 1)
      | Except.error e2 => (Except.error e2, 1)
    else (Except.error e, 0)

/-- Model of `send_pm_data`: here `API_URL + "/air-quality"` raises `TypeError` when
`API_URL` is `None` (only `requests` exceptions are caught); field lookups
for the JSON body raise `KeyError` when missing; transport errors are
caught and logged; a non-ok response logs its reason.  The result is the
boolean return value together with the warnings logged inside the call. -/
def send_pm_data (apiUrl : Option String) (values : List (String × String))
    (resp : HttpOutcome) : Except Exc (Bool × List Event) :=
  match apiUrl with
  | none => Except.error (Exc.typeError "unsupported operand type for +: NoneType and str")
  | some _ =>
    match values.lookup "date", values.lookup "pm1",
          values.lookup "pm25", values.lookup "pm10" with
    | some _, some _, some _, some _ =>
      match resp with
      | HttpOutcome.response true _ => Except.ok (true, [])
      | HttpOutcome.response false reason =>
          Except.ok (false, [Event.logWarning ("Error. PM: " ++ reason)])
      | HttpOutcome.connectionError m =>
          Except.ok (false, [Event.logWarning ("API PM Connection Error: " ++ m)])
      | HttpOutcome.timeoutError m =>
          Except.ok (false, [Event.logWarning ("API PM Timeout Error: " ++ m)])
      | HttpOutcome.requestError m =>
          Except.ok (false, [Event.logWarning ("API PM Request Error: " ++ m)])
    | _, _, _, _ => Except.error (Exc.keyError "pm field")

/-- Model of `send_enviro_data`, analogous to `send_pm_data` for the enviro
endpoint and its seven JSON fields. -/
def send_enviro_data (apiUrl : Option String) (values : List (String × String))
    (resp : HttpOutcome) : Except Exc (Bool × List Event) :=
  match apiUrl with
  | none => Except.error (Exc.typeError "unsupported operand type for +: NoneType and str")
  | some _ =>
    match values.lookup "date", values.lookup "temperature",
          values.lookup "pressure", values.lookup "humidity",
          values.lookup "oxidising", values.lookup "reducing",
          values.lookup "nh3" with
    | some _, some _, some _, some _, some _, some _, some _ =>
      match resp with
      | HttpOutcome.response true _ => Except.ok (true, [])
      | HttpOutcome.response false reason =>
          Except.ok (false, [Event.logWarning ("API Enviro Error. Enviro: " ++ reason)])
      | HttpOutcome.connectionError m =>
          Except.ok (false, [Event.logWarning ("API Enviro Connection Error: " ++ m)])
      | HttpOutcome.timeoutError m =>
          Except.ok (false, [Event.logWarning ("API Enviro Timeout Error: " ++ m)])
      | HttpOutcome.requestError m =>
          Except.ok (false, [Event.logWarning ("API Enviro Request Error: " ++ m)])
    | _, _, _, _, _, _, _ => Except.error (Exc.keyError "enviro field")

/-- The two global timer timestamps `update_time` (air quality) and
`update_time2` (enviro). -/
structure LoopState where
  update_time : ℚ
  update_time2 : ℚ
deriving DecidableEq, Repr

/-- The external inputs of one loop iteration: sensor outcomes, the value
of `time.time()` during the iteration, the `API_URL` environment value and
the HTTP responses the two endpoints would give. -/
structure IterEnv where
  enviroSensors : Except Exc EnviroInputs
  pmDate : String
  pmAttempt1 : Except Exc PmReading
  pmAttempt2 : Except Exc PmReading
  t : ℚ
  apiUrl : Option String
  pmResp : HttpOutcome
  enviroResp : HttpOutcome
deriving Repr

/-- Lines 181–187: the air-quality branch.  The dict is logged, the timer
is reset to the current time, then `send_pm_data` is called; an exception
of the send escapes with the timer already reset. -/
def pmBlock (env : IterEnv) (s : LoopState) (pm_values : List (String × String)) :
    LoopState × List Event × Option Exc :=
  let s1 : LoopState := { s with update_time := env.t }
  match send_pm_data env.apiUrl pm_values env.pmResp with
  | Except.error e =>
      (s1, [Event.logInfoValues pm_values, Event.pmSendCall pm_values], some e)
  | Except.ok (true, logs) =>
      (s1, Event.logInfoValues pm_values :: Event.pmSendCall pm_values ::
            (logs ++ [Event.logInfo "API pm Response: OK"]), none)
  | Except.ok (false, logs) =>
      (s1, Event.logInfoValues pm_values :: Event.pmSendCall pm_values ::
            (logs ++ [Event.logWarning "API pm Response: Failed"]), none)

/-- Lines 188–194: the enviro branch, symmetric to `pmBlock` on
`update_time2`. -/
def enviroBlock (env : IterEnv) (s : LoopState) (enviro_values : List (String × String)) :
    LoopState × List Event × Option Exc :=
  let s2 : LoopState := { s with update_time2 := env.t }
  match send_enviro_data env.apiUrl enviro_values env.enviroResp with
  | Except.error e =>
      (s2, [Event.logInfoValues enviro_values, Event.enviroSendCall enviro_values], some e)
  | Except.ok (true, logs) =>
      (s2, Event.logInfoValues enviro_values :: Event.enviroSendCall enviro_values ::
            (logs ++ [Event.logInfo "API enviro Response: OK"]), none)
  | Except.ok (false, logs) =>
      (s2, Event.logInfoValues enviro_values :: Event.enviroSendCall enviro_values ::
            (logs ++ [Event.logWarning "API enviro Response: Failed"]), none)

/-- The enviro half of the loop body (executed only when the air-quality
branch did not raise); `time_since_update2` was computed before the
air-quality branch ran. -/
def enviroPhase (env : IterEnv) (s : LoopState) (ev1 : List Event)
    (enviro_values : List (String × String)) (time_since_update2 : ℚ) :
    LoopState × List Event × Option Exc :=
  if 900 < time_since_update2 then
    match enviroBlock env s enviro_values with
    | (s2, ev2, oe) => (s2, ev1 ++ ev2, oe)
  else (s, ev1, none)

/-- Lines 177–194, the body of the `try`: read both sensors, compute both
elapsed times, run the air-quality branch then the enviro branch.  The
third component is the exception escaping the body, if any; state
mutations made before the raise persist. -/
def loopBody (env : IterEnv) (s : LoopState) : LoopState × List Event × Option Exc :=
  match env.enviroSensors with
  | Except.error e => (s, [], some e)
  | Except.ok ei =>
    match (read_pm_values env.pmDate env.pmAttempt1 env.pmAttempt2).1 with
    | Except.error e => (s, [], some e)
    | Except.ok pm_values =>
      let time_since_update := env.t - s.update_time
      let time_since_update2 := env.t - s.update_time2
      if 300 < time_since_update then
        match pmBlock env s pm_values with
        | (s1, ev1, some e) => (s1, ev1, some e)
        | (s1, ev1, none) =>
            enviroPhase env s1 ev1 (read_enviro_values ei) time_since_update2
      else enviroPhase env s [] (read_enviro_values ei) time_since_update2

/-- Lines 175–196: one iteration of `while True`.  An exception escaping
the body is caught and logged as a warning; the iteration always yields a
successor state. -/
def loopStep (env : IterEnv) (s : LoopState) : LoopState × List Event :=
  match loopBody env s with
  | (s1, evs, some e) =>
      (s1, evs ++ [Event.logWarning ("Main Loop Exception: " ++ excMsg e)])
  | (s1, evs, none) => (s1, evs)

/-- Running the loop over a list of iteration inputs, accumulating the
event trace. -/
def run : List IterEnv → LoopState → LoopState × List Event
  | [], s => (s, [])
  | env :: rest, s =>
      let p := loopStep env s
      let q := run rest p.1
      (q.1, p.2 ++ q.2)

/-- Whether an event is a `send_pm_data` call. -/
def isPmCallEvent : Event → Bool
  | Event.pmSendCall _ => true
  | _ => false

/-- Whether an event is a `send_enviro_data` call. -/
def isEnviroCallEvent : Event → Bool
  | Event.enviroSendCall _ => true
  | _ => false

/-- Number of `send_pm_data` calls in a trace. -/
def countPmCalls (evs : List Event) : ℕ := evs.countP isPmCallEvent

/-- Number of `send_enviro_data` calls in a trace. -/
def countEnviroCalls (evs : List Event) : ℕ := evs.countP isEnviroCallEvent

/-- Both sensor reads of the iteration succeed. -/
def goodReads (env : IterEnv) : Prop :=
  (∃ ei, env.enviroSensors = Except.ok ei) ∧
  (∃ m, (read_pm_values env.pmDate env.pmAttempt1 env.pmAttempt2).1 = Except.ok m)

/-- A fully operational iteration: both reads succeed and `API_URL` is
set, so neither branch can raise. -/
def goodEnv (env : IterEnv) : Prop :=
  goodReads env ∧ ∃ u, env.apiUrl = some u

/-- The boolean the code derives from a `requests.post` outcome: a
response was obtained and its `ok` flag is set. -/
def okOutcome : HttpOutcome → Bool
  | HttpOutcome.response ok _ => ok
  | _ => false

/-! ### Helper lemmas -/

theorem fracStr_spec : ∀ f : ℕ, f < 100 →
    ((if f < 10 then "0" else "") ++ Nat.repr f).length = 2 ∧
    ∀ c ∈ ((if f < 10 then "0" else "") ++ Nat.repr f).toList, c ≠ '.' := by
  decide

theorem takeWhile_ne_append (l₁ l₂ : List Char) (h : ∀ c ∈ l₁, c ≠ '.') :
    (l₁ ++ '.' :: l₂).takeWhile (fun c => c != '.') = l₁ := by
  induction l₁ with
  | nil => simp [List.takeWhile]
  | cons a l ih =>
      have ha : (a != '.') = true := by
        simpa using h a (by simp)
      simp only [List.cons_append, List.takeWhile_cons, ha]
      simp [ih fun c hc => h c (by simp [hc])]

theorem renderFixed2_data (n : ℤ) :
    (renderFixed2 n).data =
      (if n < 0 then "-" else "").data ++
      List.replicate (5 - ((if n < 0 then "-" else "").length +
        ((Nat.repr (n.natAbs / 100)).length + 1 +
         ((if n.natAbs % 100 < 10 then "0" else "") ++ Nat.repr (n.natAbs % 100)).length))) '0' ++
      (Nat.repr (n.natAbs / 100)).data ++ '.' ::
      ((if n.natAbs % 100 < 10 then "0" else "") ++ Nat.repr (n.natAbs % 100)).data := by
  simp only [renderFixed2, String.length_append]
  simp [String.data_append, List.append_assoc]
  rfl

theorem renderFixed2_structure (n : ℤ) :
    ∃ pre frac : List Char, (renderFixed2 n).toList = pre ++ '.' :: frac ∧
      frac.length = 2 ∧ ∀ c ∈ frac, c ≠ '.' := by
  have h100 : n.natAbs % 100 < 100 := Nat.mod_lt _ (by norm_num)
  obtain ⟨hlen, hdot⟩ := fracStr_spec (n.natAbs % 100) h100
  refine ⟨(if n < 0 then "-" else "").data ++
      List.replicate (5 - ((if n < 0 then "-" else "").length +
        ((Nat.repr (n.natAbs / 100)).length + 1 +
         ((if n.natAbs % 100 < 10 then "0" else "") ++ Nat.repr (n.natAbs % 100)).length))) '0' ++
      (Nat.repr (n.natAbs / 100)).data,
    ((if n.natAbs % 100 < 10 then "0" else "") ++ Nat.repr (n.natAbs % 100)).data,
    ?_, hlen, hdot⟩
  show (renderFixed2 n).data = _
  simp [renderFixed2_data, List.append_assoc]

theorem renderFixed2_length (n : ℤ) : 5 ≤ (renderFixed2 n).length := by
  have h100 : n.natAbs % 100 < 100 := Nat.mod_lt _ (by norm_num)
  obtain ⟨hlen, -⟩ := fracStr_spec (n.natAbs % 100) h100
  show 5 ≤ (renderFixed2 n).data.length
  rw [renderFixed2_data]
  simp only [List.length_append, List.length_cons, List.length_replicate, String.length]
  have h2 : (String.append (if n.natAbs % 100 < 10 then "0" else "")
      (Nat.repr (n.natAbs % 100))).data.length = 2 := hlen
  have h3 : ((if n.natAbs % 100 < 10 then "0" else "") ++
      Nat.repr (n.natAbs % 100)).data.length = 2 := hlen
  omega

theorem renderFixed2_two_decimals (n : ℤ) :
    '.' ∈ (renderFixed2 n).toList ∧
    ((renderFixed2 n).toList.reverse.takeWhile (fun c => c != '.')).length = 2 := by
  obtain ⟨pre, frac, hs, hlen, hdot⟩ := renderFixed2_structure n
  constructor
  · rw [hs]; simp
  · rw [hs, List.reverse_append, List.reverse_cons, List.append_assoc, List.singleton_append,
      takeWhile_ne_append _ _ (fun c hc => hdot c (List.mem_reverse.mp hc)),
      List.length_reverse, hlen]

/-! ### Loop helper lemmas -/

theorem read_pm_values_ok (d : String) (a1 a2 : Except Exc PmReading)
    (m : List (String × String))
    (h : (read_pm_values d a1 a2).1 = Except.ok m) : ∃ r, m = pmDict d r := by
  cases a1 with
  | ok r =>
      simp only [read_pm_values] at h
      exact ⟨r, by simpa using h.symm⟩
  | error e =>
      simp only [read_pm_values] at h
      by_cases he : e = Exc.readTimeoutError ∨ e = Exc.checksumMismatchError
      · rw [if_pos he] at h
        cases a2 with
        | ok r => exact ⟨r, by simpa using h.symm⟩
        | error e2 => simp at h
      · rw [if_neg he] at h
        simp at h

theorem send_pm_data_pmDict_ok (u d : String) (r : PmReading) (resp : HttpOutcome) :
    ∃ b logs, send_pm_data (some u) (pmDict d r) resp = Except.ok (b, logs) ∧
      b = okOutcome resp ∧ ∀ l ∈ logs, ∃ m, l = Event.logWarning m := by
  cases resp with
  | response ok reason => cases ok <;> exact ⟨_, _, rfl, rfl, by simp⟩
  | connectionError m => exact ⟨_, _, rfl, rfl, by simp⟩
  | timeoutError m => exact ⟨_, _, rfl, rfl, by simp⟩
  | requestError m => exact ⟨_, _, rfl, rfl, by simp⟩

theorem send_enviro_data_reading_ok (u : String) (i : EnviroInputs) (resp : HttpOutcome) :
    ∃ b logs, send_enviro_data (some u) (read_enviro_values i) resp = Except.ok (b, logs) ∧
      b = okOutcome resp ∧ ∀ l ∈ logs, ∃ m, l = Event.logWarning m := by
  cases resp with
  | response ok reason => cases ok <;> exact ⟨_, _, rfl, rfl, by simp⟩
  | connectionError m => exact ⟨_, _, rfl, rfl, by simp⟩
  | timeoutError m => exact ⟨_, _, rfl, rfl, by simp⟩
  | requestError m => exact ⟨_, _, rfl, rfl, by simp⟩

/-- Everything `loopStep` can do in a fully operational iteration, in one
explicit equation: both timers follow their threshold tests, and the trace
is the air-quality block followed by the enviro block, each present
exactly when its elapsed time exceeds its interval. -/
theorem loopStep_good_spec (env : IterEnv) (s : LoopState) (h : goodEnv env) :
    ∃ (r : PmReading) (ei : EnviroInputs) (plogs elogs : List Event) (pf ef : Event),
      env.enviroSensors = Except.ok ei ∧
      (∀ l ∈ plogs, ∃ m, l = Event.logWarning m) ∧
      (∀ l ∈ elogs, ∃ m, l = Event.logWarning m) ∧
      (pf = Event.logInfo "API pm Response: OK" ∨
       pf = Event.logWarning "API pm Response: Failed") ∧
      (ef = Event.logInfo "API enviro Response: OK" ∨
       ef = Event.logWarning "API enviro Response: Failed") ∧
      loopStep env s =
        (⟨if 300 < env.t - s.update_time then env.t else s.update_time,
          if 900 < env.t - s.update_time2 then env.t else s.update_time2⟩,
         (if 300 < env.t - s.update_time then
            Event.logInfoValues (pmDict env.pmDate r) ::
            Event.pmSendCall (pmDict env.pmDate r) :: (plogs ++ [pf])
          else []) ++
         (if 900 < env.t - s.update_time2 then
            Event.logInfoValues (read_enviro_values ei) ::
            Event.enviroSendCall (read_enviro_values ei) :: (elogs ++ [ef])
          else [])) := by
  obtain ⟨⟨⟨ei, hei⟩, ⟨m, hm⟩⟩, ⟨u, hu⟩⟩ := h
  obtain ⟨r, rfl⟩ := read_pm_values_ok _ _ _ _ hm
  obtain ⟨b1, plogs, hps, hb1, hpl⟩ := send_pm_data_pmDict_ok u env.pmDate r env.pmResp
  obtain ⟨b2, elogs, hes, hb2, hel⟩ := send_enviro_data_reading_ok u ei env.enviroResp
  refine ⟨r, ei, plogs, elogs,
    (if b1 then Event.logInfo "API pm Response: OK"
     else Event.logWarning "API pm Response: Failed"),
    (if b2 then Event.logInfo "API enviro Response: OK"
     else Event.logWarning "API enviro Response: Failed"),
    hei, hpl, hel, by cases b1 <;> simp, by cases b2 <;> simp, ?_⟩
  by_cases h1 : 300 < env.t - s.update_time <;>
    by_cases h2 : 900 < env.t - s.update_time2 <;>
      simp only [loopStep, loopBody, hei, hm, h1, h2, if_true, if_false, pmBlock,
        enviroPhase, enviroBlock, hu, hps, hes] <;>
      cases b1 <;> cases b2 <;> simp_all

theorem countPm_loopStep (env : IterEnv) (s : LoopState) (h : goodEnv env) :
    countPmCalls (loopStep env s).2 =
      if 300 < env.t - s.update_time then 1 else 0 := by
  obtain ⟨r, ei, plogs, elogs, pf, ef, -, hpl, hel, hpf, hef, heq⟩ := loopStep_good_spec env s h
  have hp : plogs.countP isPmCallEvent = 0 :=
    List.countP_eq_zero.mpr fun l hl => by
      obtain ⟨m, rfl⟩ := hpl l hl; simp [isPmCallEvent]
  have he : elogs.countP isPmCallEvent = 0 :=
    List.countP_eq_zero.mpr fun l hl => by
      obtain ⟨m, rfl⟩ := hel l hl; simp [isPmCallEvent]
  rw [heq]
  by_cases h1 : 300 < env.t - s.update_time <;> by_cases h2 : 900 < env.t - s.update_time2 <;>
    rcases hpf with rfl | rfl <;> rcases hef with rfl | rfl <;>
      simp [h1, h2, countPmCalls, List.countP_append, List.countP_cons, isPmCallEvent, hp, he]

theorem countEnviro_loopStep (env : IterEnv) (s : LoopState) (h : goodEnv env) :
    countEnviroCalls (loopStep env s).2 =
      if 900 < env.t - s.update_time2 then 1 else 0 := by
  obtain ⟨r, ei, plogs, elogs, pf, ef, -, hpl, hel, hpf, hef, heq⟩ := loopStep_good_spec env s h
  have hp : plogs.countP isEnviroCallEvent = 0 :=
    List.countP_eq_zero.mpr fun l hl => by
      obtain ⟨m, rfl⟩ := hpl l hl; simp [isEnviroCallEvent]
  have he : elogs.countP isEnviroCallEvent = 0 :=
    List.countP_eq_zero.mpr fun l hl => by
      obtain ⟨m, rfl⟩ := hel l hl; simp [isEnviroCallEvent]
  rw [heq]
  by_cases h1 : 300 < env.t - s.update_time <;> by_cases h2 : 900 < env.t - s.update_time2 <;>
    rcases hpf with rfl | rfl <;> rcases hef with rfl | rfl <;>
      simp [h1, h2, countEnviroCalls, List.countP_append, List.countP_cons, isEnviroCallEvent,
        hp, he]

theorem update_time_loopStep (env : IterEnv) (s : LoopState) (h : goodEnv env) :
    (loopStep env s).1.update_time =
      if 300 < env.t - s.update_time then env.t else s.update_time := by
  obtain ⟨r, ei, plogs, elogs, pf, ef, -, -, -, -, -, heq⟩ := loopStep_good_spec env s h
  rw [heq]

theorem update_time2_loopStep (env : IterEnv) (s : LoopState) (h : goodEnv env) :
    (loopStep env s).1.update_time2 =
      if 900 < env.t - s.update_time2 then env.t else s.update_time2 := by
  obtain ⟨r, ei, plogs, elogs, pf, ef, -, -, -, -, -, heq⟩ := loopStep_good_spec env s h
  rw [heq]

theorem run_singleton (env : IterEnv) (s : LoopState) :
    run [env] s = ((loopStep env s).1, (loopStep env s).2) := by
  simp [run]

theorem run_append (xs ys : List IterEnv) (s : LoopState) :
    run (xs ++ ys) s =
      ((run ys (run xs s).1).1, (run xs s).2 ++ (run ys (run xs s).1).2) := by
  induction xs generalizing s with
  | nil => simp [run]
  | cons x xs ih => simp [run, ih, List.append_assoc]

theorem run_no_pm (envs : List IterEnv) (s : LoopState)
    (hg : ∀ e ∈ envs, goodEnv e) (ht : ∀ e ∈ envs, e.t - s.update_time ≤ 300) :
    countPmCalls (run envs s).2 = 0 ∧ (run envs s).1.update_time = s.update_time := by
  induction envs generalizing s with
  | nil => simp [run, countPmCalls]
  | cons env rest ih =>
    have hgood : goodEnv env := hg env (by simp)
    have hcond : ¬300 < env.t - s.update_time := not_lt.mpr (ht env (by simp))
    have hu : (loopStep env s).1.update_time = s.update_time := by
      rw [update_time_loopStep env s hgood, if_neg hcond]
    have hrest := ih (loopStep env s).1
      (fun e he => hg e (by simp [he]))
      (fun e he => by rw [hu]; exact ht e (by simp [he]))
    refine ⟨?_, by simpa [run, hu] using hrest.2⟩
    have hc : countPmCalls (loopStep env s).2 = 0 := by
      rw [countPm_loopStep env s hgood, if_neg hcond]
    simp [run, countPmCalls, List.countP_append]
    constructor
    · simpa [countPmCalls] using hc
    · simpa [countPmCalls] using hrest.1

theorem run_no_enviro (envs : List IterEnv) (s : LoopState)
    (hg : ∀ e ∈ envs, goodEnv e) (ht : ∀ e ∈ envs, e.t - s.update_time2 ≤ 900) :
    countEnviroCalls (run envs s).2 = 0 ∧ (run envs s).1.update_time2 = s.update_time2 := by
  induction envs generalizing s with
  | nil => simp [run, countEnviroCalls]
  | cons env rest ih =>
    have hgood : goodEnv env := hg env (by simp)
    have hcond : ¬900 < env.t - s.update_time2 := not_lt.mpr (ht env (by simp))
    have hu : (loopStep env s).1.update_time2 = s.update_time2 := by
      rw [update_time2_loopStep env s hgood, if_neg hcond]
    have hrest := ih (loopStep env s).1
      (fun e he => hg e (by simp [he]))
      (fun e he => by rw [hu]; exact ht e (by simp [he]))
    refine ⟨?_, by simpa [run, hu] using hrest.2⟩
    have hc : countEnviroCalls (loopStep env s).2 = 0 := by
      rw [countEnviro_loopStep env s hgood, if_neg hcond]
    simp [run, countEnviroCalls, List.countP_append]
    constructor
    · simpa [countEnviroCalls] using hc
    · simpa [countEnviroCalls] using hrest.1

/-! ### C3: particulate read retry policy -/

/-- C3: when the first particulate read raises a timeout or checksum
error, `read_pm_values` resets once and returns the retry outcome (value
or error); a first read success uses no reset; any other first-read error
propagates immediately with no reset and no retry. -/
theorem C3_read_pm_retry_policy :
    ∀ (date : String) (a2 : Except Exc PmReading),
      (∀ r, read_pm_values date (Except.ok r) a2 = (Except.ok (pmDict date r), 0)) ∧
      (∀ e, e = Exc.readTimeoutError ∨ e = Exc.checksumMismatchError →
        read_pm_values date (Except.error e) a2 =
          ((match a2 with
            | Except.ok r => Except.ok (pmDict date r)
            | Except.error e2 => Except.error e2), 1)) ∧
      (∀ e, e ≠ Exc.readTimeoutError → e ≠ Exc.checksumMismatchError →
        read_pm_values date (Except.error e) a2 = (Except.error e, 0)) := by
  intro date a2
  refine ⟨fun r => rfl, fun e he => ?_, fun e h1 h2 => ?_⟩
  · show (if e = Exc.readTimeoutError ∨ e = Exc.checksumMismatchError then
        match a2 with
        | Except.ok r => (Except.ok (pmDict date r), 1)
        | Except.error e2 => (Except.error e2, 1)
      else (Except.error e, 0)) = _
    rw [if_pos he]
    cases a2 <;> rfl
  · show (if e = Exc.readTimeoutError ∨ e = Exc.checksumMismatchError then
        match a2 with
        | Except.ok r => (Except.ok (pmDict date r), 1)
        | Except.error e2 => (Except.error e2, 1)
      else (Except.error e, 0)) = _
    rw [if_neg (by tauto)]

/-- Witness for C3 at concrete inputs: a transient first failure retries
once and returns the retry values; a hard first failure propagates with no
reset. -/
theorem C3_read_pm_retry_policy_witness :
    read_pm_values "d" (Except.error Exc.readTimeoutError) (Except.ok ⟨10, 20, 30⟩) =
      (Except.ok (pmDict "d" ⟨10, 20, 30⟩), 1) ∧
    read_pm_values "d" (Except.error (Exc.sensorError "i2c")) (Except.ok ⟨10, 20, 30⟩) =
      (Except.error (Exc.sensorError "i2c"), 0) :=
  ⟨(C3_read_pm_retry_policy "d" (Except.ok ⟨10, 20, 30⟩)).2.1
      Exc.readTimeoutError (Or.inl rfl),
   (C3_read_pm_retry_policy "d" (Except.ok ⟨10, 20, 30⟩)).2.2
      (Exc.sensorError "i2c") (by simp) (by simp)⟩

/-! ### C8: gas value scaling and truncation -/

/-- C8: each gas field is the raw reading divided by 1000, truncated
toward zero (floor for nonnegative, ceiling for negative quotients — so
never rounded away from zero) and rendered as an integer string. -/
theorem C8_gas_truncation :
    ∀ i : EnviroInputs,
      ((read_enviro_values i).lookup "oxidising" =
          some (toString (truncQ (i.oxidising / 1000))) ∧
       (read_enviro_values i).lookup "reducing" =
          some (toString (truncQ (i.reducing / 1000))) ∧
       (read_enviro_values i).lookup "nh3" =
          some (toString (truncQ (i.nh3 / 1000)))) ∧
      (∀ q : ℚ, 0 ≤ q → truncQ q = ⌊q⌋) ∧
      (∀ q : ℚ, q < 0 → truncQ q = ⌈q⌉) ∧
      (∀ q : ℚ, |(truncQ q : ℚ)| ≤ |q|) := by
  intro i
  refine ⟨⟨rfl, rfl, rfl⟩, fun q hq => if_pos hq, fun q hq => if_neg (not_le.mpr hq),
    fun q => ?_⟩
  unfold truncQ
  rcases le_or_lt 0 q with hq | hq
  · rw [if_pos hq, abs_of_nonneg hq,
      abs_of_nonneg (by exact_mod_cast Int.floor_nonneg.mpr hq)]
    exact_mod_cast Int.floor_le q
  · rw [if_neg (not_le.mpr hq), abs_of_neg hq,
      abs_of_nonpos (by exact_mod_cast Int.ceil_le.mpr (by exact_mod_cast hq.le))]
    have := Int.le_ceil q
    linarith

/-! ### C4: compensated temperature and its rendering -/

/-- C4: the temperature field is exactly the compensated value
`raw - (cpu - raw) / comp_factor` with `comp_factor = 2.25 = 9/4`,
rendered by the `05.2f` format; and every string that format produces has
length at least 5, contains a decimal point, and has exactly two
characters after its last decimal point. -/
theorem C4_temperature_compensation_format :
    (∀ i : EnviroInputs,
      (read_enviro_values i).lookup "temperature" =
        some (fmt05_2f (i.raw_temp - (i.cpu_temp - i.raw_temp) / comp_factor))) ∧
    comp_factor = 9 / 4 ∧
    ∀ x : ℚ, 5 ≤ (fmt05_2f x).length ∧ '.' ∈ (fmt05_2f x).toList ∧
      ((fmt05_2f x).toList.reverse.takeWhile (fun c => c != '.')).length = 2 := by
  refine ⟨fun i => rfl, by norm_num [comp_factor], fun x => ?_⟩
  obtain ⟨hmem, htw⟩ := renderFixed2_two_decimals (roundHalfEven (x * 100))
  exact ⟨renderFixed2_length (roundHalfEven (x * 100)), hmem, htw⟩

/-- Witness for C8: truncation evaluated on one nonnegative and one
negative concrete quotient. -/
theorem C8_gas_truncation_witness :
    truncQ ((2500 : ℚ) / 1000) = ⌊(2500 : ℚ) / 1000⌋ ∧
    truncQ ((-2500 : ℚ) / 1000) = ⌈(-2500 : ℚ) / 1000⌉ :=
  ⟨(C8_gas_truncation ⟨"d", 0, 0, 0, 0, 0, 0, 0⟩).2.1 ((2500 : ℚ) / 1000) (by norm_num),
   (C8_gas_truncation ⟨"d", 0, 0, 0, 0, 0, 0, 0⟩).2.2.1 ((-2500 : ℚ) / 1000) (by norm_num)⟩

/-! ### C2: uploader outcome classification -/

/-- C2: with `API_URL` set and the fields of the reading present (as every
reading actually passed in the program is, cf. C6), each send function
returns without raising: `true` exactly when a response arrived with its
`ok` flag set and no warning is logged then; on any transport error or a
non-ok response it returns `false` with exactly one warning, and the
non-ok warning carries the reason of the response. -/
theorem C2_send_outcomes :
    ∀ (u : String) (values : List (String × String)) (resp : HttpOutcome),
      (((values.lookup "date").isSome ∧ (values.lookup "pm1").isSome ∧
        (values.lookup "pm25").isSome ∧ (values.lookup "pm10").isSome) →
        ∃ b logs, send_pm_data (some u) values resp = Except.ok (b, logs) ∧
          (b = true ↔ okOutcome resp = true) ∧
          (b = true → logs = []) ∧
          (b = false → ∃ msg, logs = [Event.logWarning msg]) ∧
          (∀ reason, resp = HttpOutcome.response false reason →
            logs = [Event.logWarning ("Error. PM: " ++ reason)])) ∧
      (((values.lookup "date").isSome ∧ (values.lookup "temperature").isSome ∧
        (values.lookup "pressure").isSome ∧ (values.lookup "humidity").isSome ∧
        (values.lookup "oxidising").isSome ∧ (values.lookup "reducing").isSome ∧
        (values.lookup "nh3").isSome) →
        ∃ b logs, send_enviro_data (some u) values resp = Except.ok (b, logs) ∧
          (b = true ↔ okOutcome resp = true) ∧
          (b = true → logs = []) ∧
          (b = false → ∃ msg, logs = [Event.logWarning msg]) ∧
          (∀ reason, resp = HttpOutcome.response false reason →
            logs = [Event.logWarning ("API Enviro Error. Enviro: " ++ reason)])) := by
  intro u values resp
  constructor
  · rintro ⟨h1, h2, h3, h4⟩
    obtain ⟨d, hd⟩ := Option.isSome_iff_exists.mp h1
    obtain ⟨p1, hp1⟩ := Option.isSome_iff_exists.mp h2
    obtain ⟨p2, hp2⟩ := Option.isSome_iff_exists.mp h3
    obtain ⟨p3, hp3⟩ := Option.isSome_iff_exists.mp h4
    simp only [send_pm_data, hd, hp1, hp2, hp3]
    cases resp with
    | response ok reason => cases ok <;> simp [okOutcome]
    | connectionError m => simp [okOutcome]
    | timeoutError m => simp [okOutcome]
    | requestError m => simp [okOutcome]
  · rintro ⟨h1, h2, h3, h4, h5, h6, h7⟩
    obtain ⟨d, hd⟩ := Option.isSome_iff_exists.mp h1
    obtain ⟨v2, hv2⟩ := Option.isSome_iff_exists.mp h2
    obtain ⟨v3, hv3⟩ := Option.isSome_iff_exists.mp h3
    obtain ⟨v4, hv4⟩ := Option.isSome_iff_exists.mp h4
    obtain ⟨v5, hv5⟩ := Option.isSome_iff_exists.mp h5
    obtain ⟨v6, hv6⟩ := Option.isSome_iff_exists.mp h6
    obtain ⟨v7, hv7⟩ := Option.isSome_iff_exists.mp h7
    simp only [send_enviro_data, hd, hv2, hv3, hv4, hv5, hv6, hv7]
    cases resp with
    | response ok reason => cases ok <;> simp [okOutcome]
    | connectionError m => simp [okOutcome]
    | timeoutError m => simp [okOutcome]
    | requestError m => simp [okOutcome]

/-- Witness for C2: a connection error on the PM endpoint and a non-ok
response on the enviro endpoint, on complete concrete readings. -/
theorem C2_send_outcomes_witness :
    (∃ b logs,
      send_pm_data (some "http://api") (pmDict "d" ⟨10, 20, 30⟩)
          (HttpOutcome.connectionError "refused") = Except.ok (b, logs) ∧
        (b = true ↔ okOutcome (HttpOutcome.connectionError "refused") = true) ∧
        (b = true → logs = []) ∧
        (b = false → ∃ msg, logs = [Event.logWarning msg]) ∧
        (∀ reason, HttpOutcome.connectionError "refused" =
            HttpOutcome.response false reason →
          logs = [Event.logWarning ("Error. PM: " ++ reason)])) ∧
    (∃ b logs,
      send_enviro_data (some "http://api")
          (read_enviro_values ⟨"d", 40, 20, 1000, 50, 2500, 3500, 4500⟩)
          (HttpOutcome.response false "Bad Gateway") = Except.ok (b, logs) ∧
        (b = true ↔ okOutcome (HttpOutcome.response false "Bad Gateway") = true) ∧
        (b = true → logs = []) ∧
        (b = false → ∃ msg, logs = [Event.logWarning msg]) ∧
        (∀ reason, HttpOutcome.response false "Bad Gateway" =
            HttpOutcome.response false reason →
          logs = [Event.logWarning ("API Enviro Error. Enviro: " ++ reason)])) :=
  ⟨(C2_send_outcomes "http://api" (pmDict "d" ⟨10, 20, 30⟩)
      (HttpOutcome.connectionError "refused")).1 ⟨rfl, rfl, rfl, rfl⟩,
   (C2_send_outcomes "http://api"
      (read_enviro_values ⟨"d", 40, 20, 1000, 50, 2500, 3500, 4500⟩)
      (HttpOutcome.response false "Bad Gateway")).2
      ⟨rfl, rfl, rfl, rfl, rfl, rfl, rfl⟩⟩

/-! ### Concrete sample iteration inputs (used by witnesses) -/

/-- A concrete set of raw enviro sensor readings. -/
def sampleInputs : EnviroInputs := ⟨"01-01-2024 12:00", 40, 20, 1000, 50, 2500, 3500, 4500⟩

/-- A fully operational concrete iteration at time `t`. -/
def goodIterEnv (t : ℚ) : IterEnv :=
  { enviroSensors := Except.ok sampleInputs
    pmDate := "01-01-2024 12:00"
    pmAttempt1 := Except.ok ⟨10, 20, 30⟩
    pmAttempt2 := Except.ok ⟨10, 20, 30⟩
    t := t
    apiUrl := some "http://api"
    pmResp := HttpOutcome.response true "OK"
    enviroResp := HttpOutcome.response true "OK" }

theorem goodIterEnv_good (t : ℚ) : goodEnv (goodIterEnv t) :=
  ⟨⟨⟨_, rfl⟩, ⟨_, rfl⟩⟩, ⟨_, rfl⟩⟩

/-! ### C1: scheduler send thresholds -/

/-- C1: in a fully operational iteration, a `send_pm_data` call happens
exactly when the elapsed time since the air-quality timer reset exceeds
300 s, and a `send_enviro_data` call exactly when the enviro elapsed time
exceeds 900 s; starting both timers at 0, no send of either kind happens
while every iteration time is within the interval, and the first
iteration past the interval produces exactly one send of that kind. -/
theorem C1_scheduler_thresholds :
    (∀ (env : IterEnv) (s : LoopState), goodEnv env →
      countPmCalls (loopStep env s).2 = (if 300 < env.t - s.update_time then 1 else 0) ∧
      countEnviroCalls (loopStep env s).2 = (if 900 < env.t - s.update_time2 then 1 else 0)) ∧
    (∀ envs : List IterEnv, (∀ e ∈ envs, goodEnv e) →
      ((∀ e ∈ envs, e.t ≤ 300) → countPmCalls (run envs ⟨0, 0⟩).2 = 0) ∧
      ((∀ e ∈ envs, e.t ≤ 900) → countEnviroCalls (run envs ⟨0, 0⟩).2 = 0)) ∧
    (∀ (envs : List IterEnv) (env : IterEnv), (∀ e ∈ envs, goodEnv e) → goodEnv env →
      (∀ e ∈ envs, e.t ≤ 300) → 300 < env.t →
      countPmCalls (run (envs ++ [env]) ⟨0, 0⟩).2 = 1) ∧
    (∀ (envs : List IterEnv) (env : IterEnv), (∀ e ∈ envs, goodEnv e) → goodEnv env →
      (∀ e ∈ envs, e.t ≤ 900) → 900 < env.t →
      countEnviroCalls (run (envs ++ [env]) ⟨0, 0⟩).2 = 1) := by
  refine ⟨fun env s hg => ⟨countPm_loopStep env s hg, countEnviro_loopStep env s hg⟩,
    fun envs hg => ⟨fun ht => ?_, fun ht => ?_⟩,
    fun envs env hg hge ht hte => ?_, fun envs env hg hge ht hte => ?_⟩
  · exact (run_no_pm envs ⟨0, 0⟩ hg (fun e he => by simpa using ht e he)).1
  · exact (run_no_enviro envs ⟨0, 0⟩ hg (fun e he => by simpa using ht e he)).1
  · have hpre := run_no_pm envs ⟨0, 0⟩ hg (fun e he => by simpa using ht e he)
    rw [run_append, run_singleton]
    have hstep : countPmCalls (loopStep env (run envs ⟨0, 0⟩).1).2 = 1 := by
      rw [countPm_loopStep env _ hge, hpre.2, if_pos (by simpa using hte)]
    have hz : List.countP isPmCallEvent (run envs ⟨0, 0⟩).2 = 0 := hpre.1
    have h1 : List.countP isPmCallEvent (loopStep env (run envs ⟨0, 0⟩).1).2 = 1 := hstep
    simp only [countPmCalls, List.countP_append]
    omega
  · have hpre := run_no_enviro envs ⟨0, 0⟩ hg (fun e he => by simpa using ht e he)
    rw [run_append, run_singleton]
    have hstep : countEnviroCalls (loopStep env (run envs ⟨0, 0⟩).1).2 = 1 := by
      rw [countEnviro_loopStep env _ hge, hpre.2, if_pos (by simpa using hte)]
    have hz : List.countP isEnviroCallEvent (run envs ⟨0, 0⟩).2 = 0 := hpre.1
    have h1 : List.countP isEnviroCallEvent (loopStep env (run envs ⟨0, 0⟩).1).2 = 1 := hstep
    simp only [countEnviroCalls, List.countP_append]
    omega

/-- Witness for C1: one iteration at t = 301 after an empty prefix yields
exactly one air-quality send, and a single iteration at t = 100 yields the
threshold-determined number of enviro sends. -/
theorem C1_scheduler_thresholds_witness :
    countPmCalls (run ([] ++ [goodIterEnv 301]) ⟨0, 0⟩).2 = 1 ∧
    countEnviroCalls (loopStep (goodIterEnv 100) ⟨0, 0⟩).2 =
      (if (900 : ℚ) < (goodIterEnv 100).t - (0 : ℚ) then 1 else 0) :=
  ⟨C1_scheduler_thresholds.2.2.1 [] (goodIterEnv 301) (by simp) (goodIterEnv_good 301)
      (by simp) (by norm_num [goodIterEnv]),
   (C1_scheduler_thresholds.1 (goodIterEnv 100) ⟨0, 0⟩ (goodIterEnv_good 100)).2⟩

/-! ### C5: timer reset and frame -/

/-- C5: in an operational iteration each timer is reset exactly when its
own send is attempted — regardless of the upload outcome, which is
arbitrary in the environment — and is otherwise untouched; in the concrete
scenario with air-quality elapsed 301 s and enviro elapsed 500 s there is
exactly one `send_pm_data` call, no `send_enviro_data` call, the
air-quality timer is reset to the current time and the enviro timer keeps
its old value. -/
theorem C5_timer_reset_frame :
    (∀ (env : IterEnv) (s : LoopState), goodEnv env →
      ((loopStep env s).1.update_time =
        if 300 < env.t - s.update_time then env.t else s.update_time) ∧
      ((loopStep env s).1.update_time2 =
        if 900 < env.t - s.update_time2 then env.t else s.update_time2)) ∧
    (∀ (env : IterEnv) (s : LoopState), goodEnv env →
      env.t - s.update_time = 301 → env.t - s.update_time2 = 500 →
      countPmCalls (loopStep env s).2 = 1 ∧ countEnviroCalls (loopStep env s).2 = 0 ∧
      (loopStep env s).1.update_time = env.t ∧
      (loopStep env s).1.update_time2 = s.update_time2) := by
  refine ⟨fun env s hg => ⟨update_time_loopStep env s hg, update_time2_loopStep env s hg⟩,
    fun env s hg h1 h2 => ?_⟩
  have hp : (300 : ℚ) < env.t - s.update_time := by rw [h1]; norm_num
  have he : ¬(900 : ℚ) < env.t - s.update_time2 := by rw [h2]; norm_num
  exact ⟨by rw [countPm_loopStep env s hg, if_pos hp],
    by rw [countEnviro_loopStep env s hg, if_neg he],
    by rw [update_time_loopStep env s hg, if_pos hp],
    by rw [update_time2_loopStep env s hg, if_neg he]⟩

/-- Witness for C5: the 301 s / 500 s scenario run at t = 1000 from timers
699 and 500. -/
theorem C5_timer_reset_frame_witness :
    countPmCalls (loopStep (goodIterEnv 1000) ⟨699, 500⟩).2 = 1 ∧
    countEnviroCalls (loopStep (goodIterEnv 1000) ⟨699, 500⟩).2 = 0 ∧
    (loopStep (goodIterEnv 1000) ⟨699, 500⟩).1.update_time = (goodIterEnv 1000).t ∧
    (loopStep (goodIterEnv 1000) ⟨699, 500⟩).1.update_time2 = (500 : ℚ) := by
  have h := C5_timer_reset_frame.2 (goodIterEnv 1000) ⟨699, 500⟩ (goodIterEnv_good 1000)
    (by norm_num [goodIterEnv]) (by norm_num [goodIterEnv])
  exact h

/-! ### Trace event characterization (no assumptions on the environment) -/

/-- The possible shapes of an event in the trace of an iteration: log lines,
air-quality send calls carrying a complete particulate mapping, and
enviro send calls carrying the mapping built from the successfully read
sensor inputs. -/
def traceEvent (env : IterEnv) (e : Event) : Prop :=
  (∃ v, e = Event.logInfoValues v) ∨ (∃ m, e = Event.logInfo m) ∨
  (∃ m, e = Event.logWarning m) ∨
  (∃ r, e = Event.pmSendCall (pmDict env.pmDate r)) ∨
  (∃ ei, env.enviroSensors = Except.ok ei ∧ e = Event.enviroSendCall (read_enviro_values ei))

theorem send_pm_data_logs (apiUrl : Option String) (values : List (String × String))
    (resp : HttpOutcome) (b : Bool) (logs : List Event)
    (h : send_pm_data apiUrl values resp = Except.ok (b, logs)) :
    ∀ l ∈ logs, ∃ m, l = Event.logWarning m := by
  cases apiUrl with
  | none => exact absurd h (by simp [send_pm_data])
  | some u =>
    simp only [send_pm_data] at h
    split at h
    · split at h <;>
        (injection h with h1; injection h1 with hb hl; subst hb; subst hl; simp)
    · exact absurd h (by simp)

theorem send_enviro_data_logs (apiUrl : Option String) (values : List (String × String))
    (resp : HttpOutcome) (b : Bool) (logs : List Event)
    (h : send_enviro_data apiUrl values resp = Except.ok (b, logs)) :
    ∀ l ∈ logs, ∃ m, l = Event.logWarning m := by
  cases apiUrl with
  | none => exact absurd h (by simp [send_enviro_data])
  | some u =>
    simp only [send_enviro_data] at h
    split at h
    · split at h <;>
        (injection h with h1; injection h1 with hb hl; subst hb; subst hl; simp)
    · exact absurd h (by simp)

theorem pmBlock_trace_events (env : IterEnv) (s : LoopState) (r : PmReading) :
    ∀ e ∈ (pmBlock env s (pmDict env.pmDate r)).2.1, traceEvent env e := by
  intro e he
  unfold pmBlock at he
  cases hsend : send_pm_data env.apiUrl (pmDict env.pmDate r) env.pmResp with
  | error e' =>
      rw [hsend] at he
      simp only [List.mem_cons, List.not_mem_nil, or_false] at he
      rcases he with rfl | rfl
      · exact Or.inl ⟨_, rfl⟩
      · exact Or.inr (Or.inr (Or.inr (Or.inl ⟨r, rfl⟩)))
  | ok p =>
      obtain ⟨b, logs⟩ := p
      have hlogs := send_pm_data_logs _ _ _ _ _ hsend
      rw [hsend] at he
      cases b <;>
        simp only [List.mem_cons, List.mem_append, List.not_mem_nil, or_false] at he <;>
        [skip; skip] <;>
        rcases he with rfl | rfl | he | rfl
      · exact Or.inl ⟨_, rfl⟩
      · exact Or.inr (Or.inr (Or.inr (Or.inl ⟨r, rfl⟩)))
      · obtain ⟨m, rfl⟩ := hlogs e he
        exact Or.inr (Or.inr (Or.inl ⟨m, rfl⟩))
      · exact Or.inr (Or.inr (Or.inl ⟨_, rfl⟩))
      · exact Or.inl ⟨_, rfl⟩
      · exact Or.inr (Or.inr (Or.inr (Or.inl ⟨r, rfl⟩)))
      · obtain ⟨m, rfl⟩ := hlogs e he
        exact Or.inr (Or.inr (Or.inl ⟨m, rfl⟩))
      · exact Or.inr (Or.inl ⟨_, rfl⟩)

theorem enviroBlock_trace_events (env : IterEnv) (s : LoopState) (ei : EnviroInputs)
    (hei : env.enviroSensors = Except.ok ei) :
    ∀ e ∈ (enviroBlock env s (read_enviro_values ei)).2.1, traceEvent env e := by
  intro e he
  unfold enviroBlock at he
  cases hsend : send_enviro_data env.apiUrl (read_enviro_values ei) env.enviroResp with
  | error e' =>
      rw [hsend] at he
      simp only [List.mem_cons, List.not_mem_nil, or_false] at he
      rcases he with rfl | rfl
      · exact Or.inl ⟨_, rfl⟩
      · exact Or.inr (Or.inr (Or.inr (Or.inr ⟨ei, hei, rfl⟩)))
  | ok p =>
      obtain ⟨b, logs⟩ := p
      have hlogs := send_enviro_data_logs _ _ _ _ _ hsend
      rw [hsend] at he
      cases b <;>
        simp only [List.mem_cons, List.mem_append, List.not_mem_nil, or_false] at he <;>
        [skip; skip] <;>
        rcases he with rfl | rfl | he | rfl
      · exact Or.inl ⟨_, rfl⟩
      · exact Or.inr (Or.inr (Or.inr (Or.inr ⟨ei, hei, rfl⟩)))
      · obtain ⟨m, rfl⟩ := hlogs e he
        exact Or.inr (Or.inr (Or.inl ⟨m, rfl⟩))
      · exact Or.inr (Or.inr (Or.inl ⟨_, rfl⟩))
      · exact Or.inl ⟨_, rfl⟩
      · exact Or.inr (Or.inr (Or.inr (Or.inr ⟨ei, hei, rfl⟩)))
      · obtain ⟨m, rfl⟩ := hlogs e he
        exact Or.inr (Or.inr (Or.inl ⟨m, rfl⟩))
      · exact Or.inr (Or.inl ⟨_, rfl⟩)

theorem enviroPhase_trace_events (env : IterEnv) (s : LoopState) (ev1 : List Event)
    (ei : EnviroInputs) (tsu2 : ℚ) (hei : env.enviroSensors = Except.ok ei)
    (hev1 : ∀ e ∈ ev1, traceEvent env e) :
    ∀ e ∈ (enviroPhase env s ev1 (read_enviro_values ei) tsu2).2.1, traceEvent env e := by
  intro e he
  unfold enviroPhase at he
  by_cases h2 : 900 < tsu2
  · rw [if_pos h2] at he
    rcases hb : enviroBlock env s (read_enviro_values ei) with ⟨s2, ev2, oe⟩
    rw [hb] at he
    simp only [List.mem_append] at he
    rcases he with he | he
    · exact hev1 e he
    · have := enviroBlock_trace_events env s ei hei e
      rw [hb] at this
      exact this he
  · rw [if_neg h2] at he
    exact hev1 e he

theorem loopBody_trace_events (env : IterEnv) (s : LoopState) :
    ∀ e ∈ (loopBody env s).2.1, traceEvent env e := by
  intro e he
  cases hei : env.enviroSensors with
  | error e' =>
      simp only [loopBody, hei] at he
      simp at he
  | ok ei =>
    cases hm : (read_pm_values env.pmDate env.pmAttempt1 env.pmAttempt2).1 with
    | error e' =>
        simp only [loopBody, hei, hm] at he
        simp at he
    | ok pm_values =>
      obtain ⟨r, rfl⟩ := read_pm_values_ok _ _ _ _ hm
      by_cases h1 : 300 < env.t - s.update_time
      · simp only [loopBody, hei, hm, h1, if_true] at he
        rcases hpb : pmBlock env s (pmDict env.pmDate r) with ⟨s1, ev1, oe⟩
        rw [hpb] at he
        have hev1 : ∀ e ∈ ev1, traceEvent env e := by
          intro e he'
          have := pmBlock_trace_events env s r e
          rw [hpb] at this
          exact this he'
        cases oe with
        | some e' => exact hev1 e he
        | none => exact enviroPhase_trace_events env s1 ev1 ei _ hei hev1 e he
      · simp only [loopBody, hei, hm, h1, if_false] at he
        exact enviroPhase_trace_events env s [] ei _ hei (by simp) e he

theorem loopStep_trace_events (env : IterEnv) (s : LoopState) :
    ∀ e ∈ (loopStep env s).2, traceEvent env e := by
  intro e he
  unfold loopStep at he
  rcases hb : loopBody env s with ⟨s1, evs, oe⟩
  rw [hb] at he
  have hevs : ∀ e ∈ evs, traceEvent env e := by
    intro e he'
    have := loopBody_trace_events env s e
    rw [hb] at this
    exact this he'
  cases oe with
  | some e' =>
      simp only [List.mem_append, List.mem_cons, List.not_mem_nil, or_false] at he
      rcases he with he | rfl
      · exact hevs e he
      · exact Or.inr (Or.inr (Or.inl ⟨_, rfl⟩))
  | none => exact hevs e he

/-! ### State helper lemmas -/

theorem pmBlock_state (env : IterEnv) (s : LoopState) (v : List (String × String)) :
    (pmBlock env s v).1 = { s with update_time := env.t } := by
  unfold pmBlock
  cases hsend : send_pm_data env.apiUrl v env.pmResp with
  | error e => rfl
  | ok p => obtain ⟨b, logs⟩ := p; cases b <;> rfl

theorem enviroBlock_state (env : IterEnv) (s : LoopState) (v : List (String × String)) :
    (enviroBlock env s v).1 = { s with update_time2 := env.t } := by
  unfold enviroBlock
  cases hsend : send_enviro_data env.apiUrl v env.enviroResp with
  | error e => rfl
  | ok p => obtain ⟨b, logs⟩ := p; cases b <;> rfl

theorem enviroPhase_state (env : IterEnv) (s : LoopState) (ev1 : List Event)
    (v : List (String × String)) (tsu2 : ℚ) :
    (enviroPhase env s ev1 v tsu2).1 =
      if 900 < tsu2 then { s with update_time2 := env.t } else s := by
  unfold enviroPhase
  by_cases h2 : 900 < tsu2
  · rw [if_pos h2, if_pos h2]
    rcases heb : enviroBlock env s v with ⟨s2, ev2, oe⟩
    have := enviroBlock_state env s v
    rw [heb] at this
    exact this
  · rw [if_neg h2, if_neg h2]

theorem loopStep_state (env : IterEnv) (s : LoopState) :
    (loopStep env s).1 = (loopBody env s).1 := by
  unfold loopStep
  rcases hb : loopBody env s with ⟨s1, evs, oe⟩
  cases oe <;> rfl

theorem loopBody_update_time_of_pm (env : IterEnv) (s : LoopState) (h : goodReads env)
    (h1 : 300 < env.t - s.update_time) : (loopBody env s).1.update_time = env.t := by
  obtain ⟨⟨ei, hei⟩, ⟨m, hm⟩⟩ := h
  obtain ⟨r, rfl⟩ := read_pm_values_ok _ _ _ _ hm
  simp only [loopBody, hei, hm, h1, if_true]
  rcases hpb : pmBlock env s (pmDict env.pmDate r) with ⟨s1, ev1, oe⟩
  have hs1 : s1.update_time = env.t := by
    have h' := pmBlock_state env s (pmDict env.pmDate r)
    rw [hpb] at h'
    rw [show s1 = ({ s with update_time := env.t } : LoopState) from h']
  cases oe with
  | some e => exact hs1
  | none =>
      show (enviroPhase env s1 ev1 (read_enviro_values ei) (env.t - s.update_time2)).1.update_time = env.t
      rw [enviroPhase_state]
      by_cases h2 : 900 < env.t - s.update_time2
      · rw [if_pos h2]; exact hs1
      · rw [if_neg h2]; exact hs1

theorem loopBody_update_time2_of_enviro (env : IterEnv) (s : LoopState) (h : goodReads env)
    (h1 : ¬300 < env.t - s.update_time) (h2 : 900 < env.t - s.update_time2) :
    (loopBody env s).1.update_time2 = env.t := by
  obtain ⟨⟨ei, hei⟩, ⟨m, hm⟩⟩ := h
  obtain ⟨r, rfl⟩ := read_pm_values_ok _ _ _ _ hm
  simp only [loopBody, hei, hm, h1, if_false]
  rw [enviroPhase_state, if_pos h2]

/-! ### C6: readings are complete before upload -/

/-- C6: an enviro mapping always carries exactly the seven expected fields
in order, a successful particulate mapping exactly the four expected
fields, and every mapping handed to `send_pm_data` or `send_enviro_data`
by the loop has exactly its full field list — no partial reading is ever
passed to an uploader. -/
theorem C6_complete_readings :
    (∀ i : EnviroInputs, (read_enviro_values i).map Prod.fst =
      ["date", "temperature", "pressure", "humidity", "oxidising", "reducing", "nh3"]) ∧
    (∀ (d : String) (a1 a2 : Except Exc PmReading) (m : List (String × String)),
      (read_pm_values d a1 a2).1 = Except.ok m →
      m.map Prod.fst = ["date", "pm1", "pm25", "pm10"]) ∧
    (∀ (env : IterEnv) (s : LoopState) (v : List (String × String)),
      Event.pmSendCall v ∈ (loopStep env s).2 →
      v.map Prod.fst = ["date", "pm1", "pm25", "pm10"]) ∧
    (∀ (env : IterEnv) (s : LoopState) (v : List (String × String)),
      Event.enviroSendCall v ∈ (loopStep env s).2 →
      v.map Prod.fst =
        ["date", "temperature", "pressure", "humidity", "oxidising", "reducing", "nh3"]) := by
  refine ⟨fun i => rfl, fun d a1 a2 m hm => ?_, fun env s v hv => ?_, fun env s v hv => ?_⟩
  · obtain ⟨r, rfl⟩ := read_pm_values_ok _ _ _ _ hm
    rfl
  · rcases loopStep_trace_events env s _ hv with ⟨w, h⟩ | ⟨m', h⟩ | ⟨m', h⟩ | ⟨r, h⟩ | ⟨ei, -, h⟩
    · simp at h
    · simp at h
    · simp at h
    · obtain rfl : v = pmDict env.pmDate r := by injection h
      rfl
    · simp at h
  · rcases loopStep_trace_events env s _ hv with ⟨w, h⟩ | ⟨m', h⟩ | ⟨m', h⟩ | ⟨r, h⟩ | ⟨ei, -, h⟩
    · simp at h
    · simp at h
    · simp at h
    · simp at h
    · obtain rfl : v = read_enviro_values ei := by injection h
      rfl

/-- Witness for C6: the particulate mapping obtained from a concrete
successful read has exactly the four expected fields. -/
theorem C6_complete_readings_witness :
    (pmDict "01-01-2024 12:00" ⟨10, 20, 30⟩).map Prod.fst =
      ["date", "pm1", "pm25", "pm10"] :=
  C6_complete_readings.2.1 "01-01-2024 12:00" (Except.ok ⟨10, 20, 30⟩)
    (Except.ok ⟨10, 20, 30⟩) _ rfl

/-! ### C7: loop-level exception containment -/

/-- C7: an exception escaping the loop body leaves the state the body
reached, appends exactly one `Main Loop Exception` warning to the
events of the iteration, and the loop then proceeds directly to the next
iteration — `run` always continues, so no exception terminates the
process. -/
theorem C7_loop_exception_containment :
    ∀ (env : IterEnv) (s : LoopState) (rest : List IterEnv),
      ((loopStep env s).1 = (loopBody env s).1) ∧
      (∀ e, (loopBody env s).2.2 = some e →
        (loopStep env s).2 =
          (loopBody env s).2.1 ++
            [Event.logWarning ("Main Loop Exception: " ++ excMsg e)]) ∧
      run (env :: rest) s =
        ((run rest (loopStep env s).1).1,
         (loopStep env s).2 ++ (run rest (loopStep env s).1).2) := by
  intro env s rest
  refine ⟨loopStep_state env s, fun e he => ?_, rfl⟩
  unfold loopStep
  rcases hb : loopBody env s with ⟨s1, evs, oe⟩
  rw [hb] at he
  cases oe with
  | none => simp at he
  | some e' =>
      obtain rfl : e' = e := by simpa using he
      rfl

/-- A concrete iteration whose enviro sensor read raises a hard error. -/
def badReadEnv : IterEnv :=
  { enviroSensors := Except.error (Exc.sensorError "bme280 failure")
    pmDate := "01-01-2024 12:00"
    pmAttempt1 := Except.ok ⟨10, 20, 30⟩
    pmAttempt2 := Except.ok ⟨10, 20, 30⟩
    t := 0
    apiUrl := some "http://api"
    pmResp := HttpOutcome.response true "OK"
    enviroResp := HttpOutcome.response true "OK" }

/-- Witness for C7: a failing sensor read is logged as a loop-level
warning and the state is the one the body reached. -/
theorem C7_loop_exception_containment_witness :
    (loopStep badReadEnv ⟨0, 0⟩).2 =
      (loopBody badReadEnv ⟨0, 0⟩).2.1 ++
        [Event.logWarning ("Main Loop Exception: " ++ excMsg (Exc.sensorError "bme280 failure"))] :=
  (C7_loop_exception_containment badReadEnv ⟨0, 0⟩ []).2.1 (Exc.sensorError "bme280 failure") rfl

/-! ### C9: behaviour with API_URL absent -/

/-- A fully operational concrete iteration at time `t`, except that
`API_URL` is absent. -/
def noUrlEnv (t : ℚ) : IterEnv := { goodIterEnv t with apiUrl := none }

/-- Counterexample to C9: with `API_URL` absent, a send call on a
complete reading does not complete with a `false` return and a warning —
it raises a `TypeError` to its caller (`None + str` fails before any HTTP
request is made, and only `requests` exceptions are caught). -/
theorem C9_missing_api_url_counterexample :
    send_pm_data none (pmDict "01-01-2024 12:00" ⟨10, 20, 30⟩)
        (HttpOutcome.response true "OK") =
      Except.error (Exc.typeError "unsupported operand type for +: NoneType and str") ∧
    send_enviro_data none (read_enviro_values sampleInputs)
        (HttpOutcome.response true "OK") =
      Except.error (Exc.typeError "unsupported operand type for +: NoneType and str") :=
  ⟨rfl, rfl⟩

/-- C9 (amended): when `API_URL` is absent every invocation of
`send_enviro_data` / `send_pm_data` raises a `TypeError` instead of
returning; the exception escapes the uploader (no `false` return, no
uploader warning) and is caught by the loop-level handler, which logs the
`Main Loop Exception` warning as the last event of the iteration. -/
theorem C9_missing_api_url_amended :
    ∀ (values : List (String × String)) (resp : HttpOutcome),
      send_pm_data none values resp =
        Except.error (Exc.typeError "unsupported operand type for +: NoneType and str") ∧
      send_enviro_data none values resp =
        Except.error (Exc.typeError "unsupported operand type for +: NoneType and str") ∧
      (∀ (env : IterEnv) (s : LoopState), env.apiUrl = none → goodReads env →
        300 < env.t - s.update_time →
        (loopStep env s).2.getLast? =
          some (Event.logWarning ("Main Loop Exception: " ++
            excMsg (Exc.typeError "unsupported operand type for +: NoneType and str")))) := by
  intro values resp
  refine ⟨rfl, rfl, fun env s hapi hreads h1 => ?_⟩
  obtain ⟨⟨ei, hei⟩, ⟨m, hm⟩⟩ := hreads
  obtain ⟨r, rfl⟩ := read_pm_values_ok _ _ _ _ hm
  have hbody : loopBody env s =
      ({ s with update_time := env.t },
       [Event.logInfoValues (pmDict env.pmDate r), Event.pmSendCall (pmDict env.pmDate r)],
       some (Exc.typeError "unsupported operand type for +: NoneType and str")) := by
    simp only [loopBody, hei, hm, h1, if_true, pmBlock, hapi, send_pm_data]
  unfold loopStep
  rw [hbody]
  rfl

/-- Witness for C9 (amended): with `API_URL` absent and both reads
succeeding at t = 301, the iteration ends with the loop-level warning. -/
theorem C9_missing_api_url_amended_witness :
    (loopStep (noUrlEnv 301) ⟨0, 0⟩).2.getLast? =
      some (Event.logWarning ("Main Loop Exception: " ++
        excMsg (Exc.typeError "unsupported operand type for +: NoneType and str"))) :=
  (C9_missing_api_url_amended [] (HttpOutcome.response true "OK")).2.2 (noUrlEnv 301) ⟨0, 0⟩
    rfl ⟨⟨_, rfl⟩, ⟨_, rfl⟩⟩ (by norm_num [noUrlEnv, goodIterEnv])

/-! ### C10: timer is reset before the send call -/

/-- C10: the timer of a reading type is updated before its send function
is called, so even when the send raises an exception that escapes to the
loop-level handler the timer stays reset (it equals the iteration time
whatever the send outcome, `API_URL` included), and that reading type is
not sent again in a following iteration until a full new interval has
elapsed. -/
theorem C10_timer_reset_precedes_send :
    ∀ (env : IterEnv) (s : LoopState), goodReads env →
      (300 < env.t - s.update_time → (loopStep env s).1.update_time = env.t) ∧
      (¬300 < env.t - s.update_time → 900 < env.t - s.update_time2 →
        (loopStep env s).1.update_time2 = env.t) ∧
      (∀ env' : IterEnv, goodEnv env' → 300 < env.t - s.update_time →
        env'.t - env.t ≤ 300 →
        countPmCalls (loopStep env' (loopStep env s).1).2 = 0) := by
  intro env s hreads
  have hpm : 300 < env.t - s.update_time → (loopStep env s).1.update_time = env.t :=
    fun h1 => by rw [loopStep_state]; exact loopBody_update_time_of_pm env s hreads h1
  refine ⟨hpm, fun h1 h2 => ?_, fun env' hg' h1 ht => ?_⟩
  · rw [loopStep_state]
    exact loopBody_update_time2_of_enviro env s hreads h1 h2
  · rw [countPm_loopStep env' _ hg', hpm h1, if_neg (not_lt.mpr ht)]

/-- Witness for C10: with `API_URL` absent the send raises, yet the timer
is left reset to t = 301, and a following operational iteration at t = 500
(199 s later) performs no air-quality send. -/
theorem C10_timer_reset_precedes_send_witness :
    (loopStep (noUrlEnv 301) ⟨0, 0⟩).1.update_time = (noUrlEnv 301).t ∧
    countPmCalls (loopStep (goodIterEnv 500) (loopStep (noUrlEnv 301) ⟨0, 0⟩).1).2 = 0 :=
  ⟨(C10_timer_reset_precedes_send (noUrlEnv 301) ⟨0, 0⟩ ⟨⟨_, rfl⟩, ⟨_, rfl⟩⟩).1
      (by norm_num [noUrlEnv, goodIterEnv]),
   (C10_timer_reset_precedes_send (noUrlEnv 301) ⟨0, 0⟩ ⟨⟨_, rfl⟩, ⟨_, rfl⟩⟩).2.2
      (goodIterEnv 500) (goodIterEnv_good 500) (by norm_num [noUrlEnv, goodIterEnv])
      (by norm_num [noUrlEnv, goodIterEnv])⟩

end EnviroSendData

